import Mathlib

/-!
Verification of the email-relay service (three source variants) against its
natural-language specification.

The repository contains three near-identical Express servers:

* `src/index.js` — the basic Brevo variant (custom CORS middleware, single
  shared unauthorized message, recipient always wrapped as one object);
* `src/unnamed/part_000` — the logging Brevo variant (cors-package origin
  callback with trailing-slash trim, distinct unauthorized messages,
  array-aware recipient normalization, deduplicated allow-list);
* `src/unnamed/part_001` — the SendGrid variant (same skeleton as the basic
  variant, raw `to`/`cc` forwarding, error string with the provider code).

JavaScript values relevant to the handlers are embedded shallowly:
request-body fields are `Option`-valued (absent = `none`), the `to` and `cc`
fields may be a string or an array of strings, and JavaScript truthiness of
those shapes is modelled explicitly (empty string falsy, any array truthy).
The email-provider SDK is an oracle passed to the handler; the handler
returns the HTTP response together with the provider invocation it made, if
any, so that "the collaborator is never invoked" is a statement about the
returned value.
-/

/-- Value of the request-body `to` field: a JS string or an array of strings. -/
inductive ToVal where
  | str (s : String)
  | arr (xs : List String)
deriving DecidableEq, Repr

/-- Value of the request-body `cc` field: a JS string or an array of strings
(the string constructor covers the "present but not an array" case). -/
inductive CcVal where
  | str (s : String)
  | arr (xs : List String)
deriving DecidableEq, Repr

/-- JS truthiness of a possibly-absent string: `undefined` and `""` are falsy. -/
def strOptFalsy : Option String → Bool
  | none => true
  | some s => s == ""

/-- JS truthiness of a present `to` value: an empty string is falsy, every
array (including the empty array) is truthy. -/
def toValFalsy : ToVal → Bool
  | .str s => s == ""
  | .arr _ => false

/-- JS truthiness of the possibly-absent `to` field. -/
def toOptFalsy : Option ToVal → Bool
  | none => true
  | some v => toValFalsy v

/-- JS `x || d` on a possibly-absent string: the default is used when the
value is absent or the empty string (falsy). -/
def jsOrStr (v : Option String) (d : String) : String :=
  match v with
  | none => d
  | some s => if s == "" then d else s

/-- JSON escaping of one character: backslash and double quote get a
backslash prefix, all other characters pass through. -/
def escChar (c : Char) : List Char :=
  if c = '\\' then ['\\', '\\']
  else if c = '"' then ['\\', '"']
  else [c]

/-- Model of `JSON.stringify` on a plain string: wrap in double quotes,
escaping backslash and double quote. -/
def jsStringQuote (s : String) : String :=
  String.mk ('"' :: (s.data.map escChar).flatten ++ ['"'])

/-- Splitting a character list on a separator character, accumulating the
current piece in reverse; the effect of the JS single-character
`String.prototype.split`. -/
def splitCharAux (sep : Char) : List Char → List Char → List String
  | [], acc => [String.mk acc.reverse]
  | c :: cs, acc =>
    if c = sep then String.mk acc.reverse :: splitCharAux sep cs []
    else splitCharAux sep cs (c :: acc)

/-- JS `s.split(',')`: the empty string yields one empty piece, `n` commas
yield `n + 1` pieces. -/
def splitComma (s : String) : List String :=
  splitCharAux ',' s.data []

/-- JS `s.trim()`: drop leading and trailing whitespace. -/
def jsTrim (s : String) : String :=
  String.mk (((s.data.dropWhile Char.isWhitespace).reverse.dropWhile
    Char.isWhitespace).reverse)

/-- Model of interpolating `JSON.stringify` of a possibly-absent string into a
template literal: `JSON.stringify(undefined)` is `undefined`, which renders as
the text `undefined`. -/
def stringifyOpt : Option String → String
  | some s => jsStringQuote s
  | none => "undefined"

/-- Rendering of a possibly-absent number in a template literal. -/
def numOptStr : Option Nat → String
  | some n => toString n
  | none => "undefined"

/-- Structured failure raised by the provider SDK call: an optional structured
HTTP response (with optional `text` and `body` string payloads), a raw
message, and an optional numeric status/code. -/
structure SendError where
  respText : Option String
  respBody : Option String
  hasResp : Bool
  message : String
  code : Option Nat
deriving DecidableEq, Repr

/-- Outcome of one provider SDK call: opaque success data or a failure. -/
inductive PResult where
  | ok (data : String)
  | err (e : SendError)
deriving DecidableEq, Repr

/-- Sender identity of the outbound Brevo request. -/
structure Sender where
  email : String
  name : String
deriving DecidableEq, Repr

/-- Outbound Brevo send request. Each entry of `to` is the `email` field of
one recipient object (the basic variant can place a whole array there); each
entry of `cc`, when present, is the `email` field of one CC object. -/
structure SendReqBrevo where
  sender : Sender
  toField : List ToVal
  cc : Option (List String)
  subject : String
  htmlContent : String
deriving DecidableEq, Repr

/-- Outbound SendGrid message: `to` and `cc` are forwarded raw. -/
structure SendReqSg where
  toField : ToVal
  fromAddr : String
  subject : String
  html : String
  cc : Option (List String)
deriving DecidableEq, Repr

/-- Inbound HTTP request as the handlers see it: method, `Origin` header,
`X-API-Key` header, and the JSON body fields. -/
structure Req where
  method : String
  origin : Option String
  apiKey : Option String
  toField : Option ToVal
  subject : Option String
  html : Option String
  cc : Option CcVal
  fromField : Option String
  nameField : Option String
  emailType : Option String
deriving DecidableEq, Repr

/-- JSON response envelope; fields absent from a given variant are `none`. -/
structure Resp where
  status : Nat
  success : Option Bool
  error : Option String
  message : Option String
  data : Option String
deriving DecidableEq, Repr

/-- Default sender address used when `from` is absent or empty. -/
def defaultSenderEmail : String := "info@kenyaonabudgetsafaris.co.uk"

/-- Default sender display name used when `name` is absent or empty. -/
def defaultSenderName : String := "KenyaOnABudget Safaris"

/-- The `ccRecipients` list built by the Brevo handlers: the `email` fields
pushed when `cc && Array.isArray(cc) && cc.length > 0`, else left empty. -/
def ccRecipients : Option CcVal → List String
  | some (.arr xs) => if 0 < xs.length then xs else []
  | _ => []

/-- The SendGrid variant attaches `msg.cc = cc` exactly when
`cc && Array.isArray(cc) && cc.length > 0`. -/
def ccFieldSg : Option CcVal → Option (List String)
  | some (.arr xs) => if 0 < xs.length then some xs else none
  | _ => none

/-- Recipient list of the basic Brevo variant: `[{ email: to }]`, one object
regardless of the shape of `to`. -/
def recipientsIndex (tv : ToVal) : List ToVal := [tv]

/-- Recipient list of the logging Brevo variant:
`Array.isArray(to) ? to.map(email => ({email})) : [{email: to}]`. -/
def recipientsPart000 (tv : ToVal) : List ToVal :=
  match tv with
  | .arr xs => xs.map ToVal.str
  | .str s => [ToVal.str s]

/-- Error string composed by the basic Brevo variant catch block:
`error.response ? 'Brevo error: ' + JSON.stringify(error.response.text) :
error.message`. -/
def errorMessageIndex (e : SendError) : String :=
  if e.hasResp then "Brevo error: " ++ stringifyOpt e.respText
  else e.message

/-- Error string composed by the logging Brevo variant catch block:
`Brevo API error: ` followed by the stringified
`error.response.text || error.response.body || 'Unknown API error'`. -/
def errorMessagePart000 (e : SendError) : String :=
  if e.hasResp then
    "Brevo API error: " ++
      jsStringQuote (jsOrStr e.respText (jsOrStr e.respBody "Unknown API error"))
  else e.message

/-- Error string composed by the SendGrid variant catch block:
`SendGrid error (code): ` followed by the stringified `error.response.body`. -/
def errorMessageSg (e : SendError) : String :=
  if e.hasResp then
    "SendGrid error (" ++ numOptStr e.code ++ "): " ++ stringifyOpt e.respBody
  else e.message

/-- The 400 validation-failure response shared by all three variants. -/
def missingFieldsResp : Resp :=
  { status := 400, success := some false,
    error := some "Missing required fields (to, subject, html)",
    message := none, data := none }

/-- POST /send-email handler of the basic Brevo variant (`src/index.js`).
Returns the HTTP response paired with the provider request it sent, if any. -/
def handleSendEmailIndex (req : Req) (provider : SendReqBrevo → PResult) :
    Resp × Option SendReqBrevo :=
  match req.toField, req.subject, req.html with
  | some tv, some subj, some htmlv =>
    if toValFalsy tv || subj == "" || htmlv == "" then (missingFieldsResp, none)
    else
      let sender : Sender :=
        { email := jsOrStr req.fromField defaultSenderEmail,
          name := jsOrStr req.nameField defaultSenderName }
      let ccr := ccRecipients req.cc
      let sendReq : SendReqBrevo :=
        { sender := sender, toField := recipientsIndex tv,
          cc := if 0 < ccr.length then some ccr else none,
          subject := subj, htmlContent := htmlv }
      match provider sendReq with
      | .ok d =>
        ({ status := 200, success := some true, error := none,
           message := some "Email sent successfully", data := some d }, some sendReq)
      | .err e =>
        ({ status := 500, success := some false,
           error := some (errorMessageIndex e),
           message := none, data := none }, some sendReq)
  | _, _, _ => (missingFieldsResp, none)

/-- POST /send-email handler of the logging Brevo variant
(`src/unnamed/part_000`): array-aware recipient normalization and the richer
error string; response timestamps are not modelled. -/
def handleSendEmailPart000 (req : Req) (provider : SendReqBrevo → PResult) :
    Resp × Option SendReqBrevo :=
  match req.toField, req.subject, req.html with
  | some tv, some subj, some htmlv =>
    if toValFalsy tv || subj == "" || htmlv == "" then (missingFieldsResp, none)
    else
      let sender : Sender :=
        { email := jsOrStr req.fromField defaultSenderEmail,
          name := jsOrStr req.nameField defaultSenderName }
      let ccr := ccRecipients req.cc
      let sendReq : SendReqBrevo :=
        { sender := sender, toField := recipientsPart000 tv,
          cc := if 0 < ccr.length then some ccr else none,
          subject := subj, htmlContent := htmlv }
      match provider sendReq with
      | .ok d =>
        ({ status := 200, success := some true, error := none,
           message := some "Email sent successfully", data := some d }, some sendReq)
      | .err e =>
        ({ status := 500, success := some false,
           error := some (errorMessagePart000 e),
           message := none, data := none }, some sendReq)
  | _, _, _ => (missingFieldsResp, none)

/-- POST /send-email handler of the SendGrid variant
(`src/unnamed/part_001`): builds `msg` with raw `to` and raw `cc`. -/
def handleSendEmailSg (req : Req) (provider : SendReqSg → PResult) :
    Resp × Option SendReqSg :=
  match req.toField, req.subject, req.html with
  | some tv, some subj, some htmlv =>
    if toValFalsy tv || subj == "" || htmlv == "" then (missingFieldsResp, none)
    else
      let msg : SendReqSg :=
        { toField := tv, fromAddr := jsOrStr req.fromField defaultSenderEmail,
          subject := subj, html := htmlv, cc := ccFieldSg req.cc }
      match provider msg with
      | .ok _ =>
        ({ status := 200, success := some true, error := none,
           message := some "Email sent successfully", data := none }, some msg)
      | .err e =>
        ({ status := 500, success := some false,
           error := some (errorMessageSg e),
           message := none, data := none }, some msg)
  | _, _, _ => (missingFieldsResp, none)

/-- `validateApiKey` middleware of the basic and SendGrid variants:
`if (!apiKey || apiKey !== API_SECRET_KEY)` rejects with one shared message.
Returns the 401 error message when the request is rejected. -/
def validateApiKeyBasic (secret : String) (key : Option String) : Option String :=
  match key with
  | none => some "Unauthorized: Invalid API key"
  | some k =>
    if k == "" then some "Unauthorized: Invalid API key"
    else if k ≠ secret then some "Unauthorized: Invalid API key"
    else none

/-- `validateApiKey` middleware of the logging variant: a missing (or falsy,
hence empty) key and a mismatched key get distinct messages. -/
def validateApiKeyPart000 (secret : String) (key : Option String) : Option String :=
  match key with
  | none => some "Unauthorized: API key is required"
  | some k =>
    if k == "" then some "Unauthorized: API key is required"
    else if k ≠ secret then some "Unauthorized: Invalid API key"
    else none

/-- Route chain of POST /send-email in the basic Brevo variant:
`validateApiKey` then the handler. -/
def routeSendEmailIndex (secret : String) (req : Req)
    (provider : SendReqBrevo → PResult) : Resp × Option SendReqBrevo :=
  match validateApiKeyBasic secret req.apiKey with
  | some msg =>
    ({ status := 401, success := none, error := some msg,
       message := none, data := none }, none)
  | none => handleSendEmailIndex req provider

/-- Route chain of POST /send-email in the logging Brevo variant. -/
def routeSendEmailPart000 (secret : String) (req : Req)
    (provider : SendReqBrevo → PResult) : Resp × Option SendReqBrevo :=
  match validateApiKeyPart000 secret req.apiKey with
  | some msg =>
    ({ status := 401, success := none, error := some msg,
       message := none, data := none }, none)
  | none => handleSendEmailPart000 req provider

/-- Route chain of POST /send-email in the SendGrid variant. -/
def routeSendEmailSg (secret : String) (req : Req)
    (provider : SendReqSg → PResult) : Resp × Option SendReqSg :=
  match validateApiKeyBasic secret req.apiKey with
  | some msg =>
    ({ status := 401, success := none, error := some msg,
       message := none, data := none }, none)
  | none => handleSendEmailSg req provider

/-- CORS headers set by the custom middleware of the basic and SendGrid
variants when the origin is in the allow-list. -/
structure CorsHeaders where
  allowOrigin : String
  allowMethods : String
  allowHeaders : String
deriving DecidableEq, Repr

/-- Custom CORS middleware of the basic and SendGrid variants
(`src/index.js` lines 22-35): `if (ALLOWED_ORIGINS.includes(origin))` sets the
three headers, echoing the raw origin; otherwise no CORS header is set. An
absent origin is never a member of a list of strings. -/
def corsHeadersIndex (allowed : List String) (origin : Option String) :
    Option CorsHeaders :=
  match origin with
  | some o =>
    if o ∈ allowed then
      some { allowOrigin := o,
             allowMethods := "GET, POST, OPTIONS",
             allowHeaders := "Content-Type, Authorization, X-API-Key" }
    else none
  | none => none

/-- Whether the last character of a string is a slash, the JS test
`origin.endsWith('/')`. -/
def endsWithSlash (s : String) : Bool :=
  match s.data.getLast? with
  | some c => c = '/'
  | none => false

/-- Removing the single trailing slash: `origin.endsWith('/') ?
origin.slice(0, -1) : origin`. -/
def trimTrailingSlash (s : String) : String :=
  if endsWithSlash s then String.mk s.data.dropLast else s

/-- Outcome of the cors-package origin callback of the logging variant. -/
inductive CorsDecision where
  | allow
  | reject (msg : String)
deriving DecidableEq, Repr

/-- Origin callback of the logging variant (`src/unnamed/part_000` lines
56-81): absent origin allowed; else trim one trailing slash and test
membership; else allow everything in development mode; else fail the
callback with an Error. -/
def corsDecisionPart000 (allowed : List String) (devMode : Bool)
    (origin : Option String) : CorsDecision :=
  match origin with
  | none => .allow
  | some o =>
    let cleanOrigin := trimTrailingSlash o
    if cleanOrigin ∈ allowed then .allow
    else if devMode then .allow
    else .reject ("Origin " ++ cleanOrigin ++ " not allowed by CORS policy")

/-- Result of running a whole request through a variant pipeline: the
response envelope, the CORS headers that ended up on the response, the
provider invocation if any, and whether the matched route (its middleware
chain and handler) was executed. -/
structure PipeResult where
  status : Nat
  success : Option Bool
  error : Option String
  message : Option String
  acao : Option String
  acMethods : Option String
  acHeaders : Option String
  providerCall : Option SendReqBrevo
  routeReached : Bool
deriving DecidableEq, Repr

/-- Full pipeline of the basic Brevo variant for a POST /send-email request:
the CORS middleware always runs (setting headers only for allow-listed
origins and short-circuiting OPTIONS with 200), then the route chain. -/
def pipelineIndex (allowed : List String) (secret : String) (req : Req)
    (provider : SendReqBrevo → PResult) : PipeResult :=
  let cors := corsHeadersIndex allowed req.origin
  let acao := cors.map CorsHeaders.allowOrigin
  let acMethods := cors.map CorsHeaders.allowMethods
  let acHeaders := cors.map CorsHeaders.allowHeaders
  if req.method == "OPTIONS" then
    { status := 200, success := none, error := none, message := none,
      acao := acao, acMethods := acMethods, acHeaders := acHeaders,
      providerCall := none, routeReached := false }
  else
    let r := routeSendEmailIndex secret req provider
    { status := r.1.status, success := r.1.success, error := r.1.error,
      message := r.1.message,
      acao := acao, acMethods := acMethods, acHeaders := acHeaders,
      providerCall := r.2, routeReached := true }

/-- Full pipeline of the logging variant for a POST /send-email request.
When the origin callback fails, the cors package passes the Error to the
next error-handling middleware (`src/unnamed/part_000` lines 264-272), which
responds 500 with a generic message outside development mode and never
reaches the route; when it allows, the cors package reflects the raw request
origin, OPTIONS preflights are answered 204, and other requests reach the
route chain. -/
def pipelinePart000 (allowed : List String) (secret : String) (devMode : Bool)
    (req : Req) (provider : SendReqBrevo → PResult) : PipeResult :=
  match corsDecisionPart000 allowed devMode req.origin with
  | .reject m =>
    { status := 500, success := none,
      error := some "Internal Server Error",
      message := some (if devMode then m else "An unexpected error occurred"),
      acao := none, acMethods := none, acHeaders := none,
      providerCall := none, routeReached := false }
  | .allow =>
    if req.method == "OPTIONS" then
      { status := 204, success := none, error := none, message := none,
        acao := req.origin, acMethods := none, acHeaders := none,
        providerCall := none, routeReached := false }
    else
      let r := routeSendEmailPart000 secret req provider
      { status := r.1.status, success := r.1.success, error := r.1.error,
        message := r.1.message,
        acao := req.origin, acMethods := none, acHeaders := none,
        providerCall := r.2, routeReached := true }

/-- Default allow-list of the basic and SendGrid variants:
`(process.env.ALLOWED_ORIGINS || 'https://kenyaonabudgetsafaris.co.uk').split(',')` —
the raw comma-split of the environment value when it is set and non-empty,
with no trimming, no deduplication and no merge with a base list. -/
def allowedOriginsIndex (env : Option String) : List String :=
  splitComma (jsOrStr env "https://kenyaonabudgetsafaris.co.uk")

/-- Fixed base allow-list of the logging variant. -/
def basePart000 : List String :=
  ["https://kenyaonabudgetsafaris.co.uk",
   "https://www.kenyaonabudgetsafaris.co.uk",
   "http://127.0.0.1:5500",
   "http://localhost:5500",
   "http://localhost:3000"]

/-- First-occurrence deduplication with an accumulator of already-seen
values: the effect of `filter((value, index, self) => self.indexOf(value)
=== index)`, which keeps exactly the first occurrence of each value. -/
def dedupAux (seen : List String) : List String → List String
  | [] => []
  | x :: xs => if x ∈ seen then dedupAux seen xs else x :: dedupAux (x :: seen) xs

/-- Allow-list construction of the logging variant (`src/unnamed/part_000`
lines 13-27): split the environment value on commas, trim surrounding
whitespace, drop empty entries, prepend the fixed base list, and keep the
first occurrence of each value. No trailing-slash trimming happens here. -/
def allowedOriginsPart000 (env : Option String) : List String :=
  let fromEnv :=
    ((splitComma (jsOrStr env "")).map jsTrim).filter
      (fun origin => 0 < origin.length)
  dedupAux [] (basePart000 ++ fromEnv)

/-- A provider oracle that always succeeds. -/
def provOk : SendReqBrevo → PResult := fun _ => .ok "message-id-1"

/-- A SendGrid provider oracle that always succeeds. -/
def provOkSg : SendReqSg → PResult := fun _ => .ok "message-id-1"

/-- A structured provider failure: HTTP-level response present, numeric
code 400, textual payload, and a raw message. -/
def errStructured : SendError :=
  { respText := some "invalid sender", respBody := none, hasResp := true,
    message := "Request failed", code := some 400 }

/-- A provider oracle that always fails with `errStructured`. -/
def provErr : SendReqBrevo → PResult := fun _ => .err errStructured

/-- A well-formed POST /send-email request with a valid key for the secret
`secret123`. -/
def reqValid : Req :=
  { method := "POST", origin := none, apiKey := some "secret123",
    toField := some (.str "a@x.com"), subject := some "Hi",
    html := some "<p>hi</p>", cc := none, fromField := none,
    nameField := none, emailType := none }

/-- The same request with the `to` field holding an empty array. -/
def reqEmptyArrTo : Req := { reqValid with toField := some (.arr []) }

/-- The same request with the `to` field holding a two-element array. -/
def reqArrTo : Req :=
  { reqValid with toField := some (.arr ["a@x.com", "b@x.com"]) }

/-- The same request with the `to` field absent. -/
def reqMissingTo : Req := { reqValid with toField := none }

/-- The same request with an empty-string `X-API-Key` header. -/
def reqEmptyKey : Req := { reqValid with apiKey := some "" }

/-- The same request with a wrong `X-API-Key` header. -/
def reqWrongKey : Req := { reqValid with apiKey := some "wrong-key" }

/-- The same request carrying an origin outside every allow-list used here. -/
def reqEvilOrigin : Req := { reqValid with origin := some "https://evil.com" }

/-! ## Helper lemmas -/

theorem validateApiKeyBasic_reject (secret : String) (key : Option String)
    (h : key = none ∨ key ≠ some secret) :
    validateApiKeyBasic secret key = some "Unauthorized: Invalid API key" := by
  cases key with
  | none => rfl
  | some k =>
    have hk : k ≠ secret := by
      rcases h with h | h
      · exact absurd h (by simp)
      · intro he
        exact h (by rw [he])
    by_cases hke : k = ""
    · simp [validateApiKeyBasic, hke]
    · simp [validateApiKeyBasic, hke, hk]

theorem validateApiKeyPart000_reject (secret : String) (key : Option String)
    (h : key = none ∨ key ≠ some secret) :
    ∃ m, validateApiKeyPart000 secret key = some m
      ∧ "Unauthorized".toList <+: m.toList := by
  cases key with
  | none => exact ⟨"Unauthorized: API key is required", rfl, by decide⟩
  | some k =>
    have hk : k ≠ secret := by
      rcases h with h | h
      · exact absurd h (by simp)
      · intro he
        exact h (by rw [he])
    by_cases hke : k = ""
    · exact ⟨"Unauthorized: API key is required", by simp [validateApiKeyPart000, hke],
        by decide⟩
    · exact ⟨"Unauthorized: Invalid API key", by simp [validateApiKeyPart000, hke, hk],
        by decide⟩

/-! ## Claims about the credential check -/

/-- Claim C2: for every POST /send-email request whose X-API-Key header is
absent or not exactly equal to the configured secret, each variant responds
HTTP 401 with an unauthorized error and never invokes the email provider. -/
theorem claim_C2 (secret : String) (req : Req)
    (provB provB0 : SendReqBrevo → PResult) (provC : SendReqSg → PResult)
    (h : req.apiKey = none ∨ req.apiKey ≠ some secret) :
    ((routeSendEmailIndex secret req provB).1.status = 401
      ∧ (∃ m, (routeSendEmailIndex secret req provB).1.error = some m
          ∧ "Unauthorized".toList <+: m.toList)
      ∧ (routeSendEmailIndex secret req provB).2 = none)
    ∧ ((routeSendEmailPart000 secret req provB0).1.status = 401
      ∧ (∃ m, (routeSendEmailPart000 secret req provB0).1.error = some m
          ∧ "Unauthorized".toList <+: m.toList)
      ∧ (routeSendEmailPart000 secret req provB0).2 = none)
    ∧ ((routeSendEmailSg secret req provC).1.status = 401
      ∧ (∃ m, (routeSendEmailSg secret req provC).1.error = some m
          ∧ "Unauthorized".toList <+: m.toList)
      ∧ (routeSendEmailSg secret req provC).2 = none) := by
  obtain ⟨m0, hm0, hp0⟩ := validateApiKeyPart000_reject secret req.apiKey h
  have hb := validateApiKeyBasic_reject secret req.apiKey h
  refine ⟨⟨?_, ⟨"Unauthorized: Invalid API key", ?_, by decide⟩, ?_⟩,
    ⟨?_, ⟨m0, ?_, hp0⟩, ?_⟩,
    ⟨?_, ⟨"Unauthorized: Invalid API key", ?_, by decide⟩, ?_⟩⟩ <;>
    simp [routeSendEmailIndex, routeSendEmailPart000, routeSendEmailSg, hb, hm0]

/-- Witness for C2 at a concrete wrong-key request. -/
theorem claim_C2_witness :
    (reqWrongKey.apiKey = none ∨ reqWrongKey.apiKey ≠ some "secret123")
    ∧ (((routeSendEmailIndex "secret123" reqWrongKey provOk).1.status = 401
      ∧ (∃ m, (routeSendEmailIndex "secret123" reqWrongKey provOk).1.error = some m
          ∧ "Unauthorized".toList <+: m.toList)
      ∧ (routeSendEmailIndex "secret123" reqWrongKey provOk).2 = none)
    ∧ ((routeSendEmailPart000 "secret123" reqWrongKey provOk).1.status = 401
      ∧ (∃ m, (routeSendEmailPart000 "secret123" reqWrongKey provOk).1.error = some m
          ∧ "Unauthorized".toList <+: m.toList)
      ∧ (routeSendEmailPart000 "secret123" reqWrongKey provOk).2 = none)
    ∧ ((routeSendEmailSg "secret123" reqWrongKey provOkSg).1.status = 401
      ∧ (∃ m, (routeSendEmailSg "secret123" reqWrongKey provOkSg).1.error = some m
          ∧ "Unauthorized".toList <+: m.toList)
      ∧ (routeSendEmailSg "secret123" reqWrongKey provOkSg).2 = none)) :=
  ⟨by decide, claim_C2 "secret123" reqWrongKey provOk provOk provOkSg (by decide)⟩

/-- Claim C5, counterexample: in the basic variant (shared by the SendGrid
variant) the missing-key rejection carries exactly the same message as the
wrong-key rejection, so the two messages are not distinct. -/
theorem claim_C5_counterexample :
    validateApiKeyBasic "secret123" none = some "Unauthorized: Invalid API key"
    ∧ validateApiKeyBasic "secret123" (some "wrong-key")
        = some "Unauthorized: Invalid API key" :=
  ⟨rfl, rfl⟩

/-- Claim C5 (amended): the logging variant distinguishes a missing key
("API key is required") from a present-but-wrong key ("Invalid API key"),
while the basic and SendGrid variants answer both cases with the identical
message. -/
theorem claim_C5_amended (secret k : String) (h1 : k ≠ "") (h2 : k ≠ secret) :
    validateApiKeyPart000 secret none = some "Unauthorized: API key is required"
    ∧ validateApiKeyPart000 secret (some k) = some "Unauthorized: Invalid API key"
    ∧ validateApiKeyPart000 secret none ≠ validateApiKeyPart000 secret (some k)
    ∧ validateApiKeyBasic secret none = validateApiKeyBasic secret (some k) := by
  have hp : validateApiKeyPart000 secret (some k)
      = some "Unauthorized: Invalid API key" := by
    simp [validateApiKeyPart000, h1, h2]
  have hb : validateApiKeyBasic secret (some k)
      = some "Unauthorized: Invalid API key" := by
    simp [validateApiKeyBasic, h1, h2]
  refine ⟨rfl, hp, ?_, ?_⟩
  · rw [hp]
    show (some "Unauthorized: API key is required" : Option String)
      ≠ some "Unauthorized: Invalid API key"
    decide
  · rw [hb]
    rfl

/-- Witness for the amended C5 at a concrete secret and wrong key. -/
theorem claim_C5_witness :
    ("wrong-key" ≠ "" ∧ "wrong-key" ≠ "secret123")
    ∧ (validateApiKeyPart000 "secret123" none
        = some "Unauthorized: API key is required"
      ∧ validateApiKeyPart000 "secret123" (some "wrong-key")
        = some "Unauthorized: Invalid API key"
      ∧ validateApiKeyPart000 "secret123" none
        ≠ validateApiKeyPart000 "secret123" (some "wrong-key")
      ∧ validateApiKeyBasic "secret123" none
        = validateApiKeyBasic "secret123" (some "wrong-key")) :=
  ⟨by decide, claim_C5_amended "secret123" "wrong-key" (by decide) (by decide)⟩

/-- Claim C10: an empty-string X-API-Key header is rejected with 401 and no
provider call in every variant, whatever the configured secret — including
the empty secret, where exact-match equality would have accepted it. -/
theorem claim_C10 (secret : String) (req : Req)
    (provB provB0 : SendReqBrevo → PResult) (provC : SendReqSg → PResult)
    (h : req.apiKey = some "") :
    ((routeSendEmailIndex secret req provB).1.status = 401
      ∧ (routeSendEmailIndex secret req provB).2 = none)
    ∧ ((routeSendEmailPart000 secret req provB0).1.status = 401
      ∧ (routeSendEmailPart000 secret req provB0).2 = none)
    ∧ ((routeSendEmailSg secret req provC).1.status = 401
      ∧ (routeSendEmailSg secret req provC).2 = none) := by
  simp [routeSendEmailIndex, routeSendEmailPart000, routeSendEmailSg, h,
    validateApiKeyBasic, validateApiKeyPart000]

/-- Witness for C10 with the configured secret itself the empty string: the
header equals the secret, yet the request is still rejected. -/
theorem claim_C10_witness :
    reqEmptyKey.apiKey = some ""
    ∧ (((routeSendEmailIndex "" reqEmptyKey provOk).1.status = 401
      ∧ (routeSendEmailIndex "" reqEmptyKey provOk).2 = none)
    ∧ ((routeSendEmailPart000 "" reqEmptyKey provOk).1.status = 401
      ∧ (routeSendEmailPart000 "" reqEmptyKey provOk).2 = none)
    ∧ ((routeSendEmailSg "" reqEmptyKey provOkSg).1.status = 401
      ∧ (routeSendEmailSg "" reqEmptyKey provOkSg).2 = none)) :=
  ⟨rfl, claim_C10 "" reqEmptyKey provOk provOk provOkSg rfl⟩

/-! ## Claims about payload validation -/

theorem handle_missing_index (req : Req) (prov : SendReqBrevo → PResult)
    (h : req.toField = none ∨ req.toField = some (ToVal.str "")
       ∨ req.subject = none ∨ req.subject = some ""
       ∨ req.html = none ∨ req.html = some "") :
    handleSendEmailIndex req prov = (missingFieldsResp, none) := by
  rcases h with h | h | h | h | h | h <;>
    rcases ht : req.toField with _ | tv <;> rcases hs : req.subject with _ | sv <;>
    rcases hh : req.html with _ | hv <;>
    simp_all [handleSendEmailIndex, toValFalsy]

theorem handle_missing_part000 (req : Req) (prov : SendReqBrevo → PResult)
    (h : req.toField = none ∨ req.toField = some (ToVal.str "")
       ∨ req.subject = none ∨ req.subject = some ""
       ∨ req.html = none ∨ req.html = some "") :
    handleSendEmailPart000 req prov = (missingFieldsResp, none) := by
  rcases h with h | h | h | h | h | h <;>
    rcases ht : req.toField with _ | tv <;> rcases hs : req.subject with _ | sv <;>
    rcases hh : req.html with _ | hv <;>
    simp_all [handleSendEmailPart000, toValFalsy]

theorem handle_missing_sg (req : Req) (prov : SendReqSg → PResult)
    (h : req.toField = none ∨ req.toField = some (ToVal.str "")
       ∨ req.subject = none ∨ req.subject = some ""
       ∨ req.html = none ∨ req.html = some "") :
    handleSendEmailSg req prov = (missingFieldsResp, none) := by
  rcases h with h | h | h | h | h | h <;>
    rcases ht : req.toField with _ | tv <;> rcases hs : req.subject with _ | sv <;>
    rcases hh : req.html with _ | hv <;>
    simp_all [handleSendEmailSg, toValFalsy]

/-- Claim C1, counterexample: a request whose `to` field is the empty array —
an empty value for `to` — passes the falsiness check (arrays are truthy in
JS), so the handler answers 200 and the provider is invoked with an empty
recipient list, where the claim requires 400 and no provider call. -/
theorem claim_C1_counterexample :
    reqEmptyArrTo.toField = some (ToVal.arr [])
    ∧ (handleSendEmailPart000 reqEmptyArrTo provOk).1.status = 200
    ∧ (handleSendEmailPart000 reqEmptyArrTo provOk).2
        = some { sender := { email := defaultSenderEmail,
                             name := defaultSenderName },
                 toField := [], cc := none, subject := "Hi",
                 htmlContent := "<p>hi</p>" } :=
  ⟨rfl, rfl, rfl⟩

/-- Claim C1 (amended): a POST /send-email request whose `to`, `subject`, or
`html` is missing or the empty string is answered 400 with success=false and
a descriptive error, and the provider is never invoked, in all three
variants; an empty array for `to`, however, is truthy and passes this check. -/
theorem claim_C1_amended (req : Req) (provB provB0 : SendReqBrevo → PResult)
    (provC : SendReqSg → PResult)
    (h : req.toField = none ∨ req.toField = some (ToVal.str "")
       ∨ req.subject = none ∨ req.subject = some ""
       ∨ req.html = none ∨ req.html = some "") :
    ((handleSendEmailIndex req provB).1.status = 400
      ∧ (handleSendEmailIndex req provB).1.success = some false
      ∧ (handleSendEmailIndex req provB).1.error
          = some "Missing required fields (to, subject, html)"
      ∧ (handleSendEmailIndex req provB).2 = none)
    ∧ ((handleSendEmailPart000 req provB0).1.status = 400
      ∧ (handleSendEmailPart000 req provB0).1.success = some false
      ∧ (handleSendEmailPart000 req provB0).1.error
          = some "Missing required fields (to, subject, html)"
      ∧ (handleSendEmailPart000 req provB0).2 = none)
    ∧ ((handleSendEmailSg req provC).1.status = 400
      ∧ (handleSendEmailSg req provC).1.success = some false
      ∧ (handleSendEmailSg req provC).1.error
          = some "Missing required fields (to, subject, html)"
      ∧ (handleSendEmailSg req provC).2 = none) := by
  have hA := handle_missing_index req provB h
  have hB := handle_missing_part000 req provB0 h
  have hC := handle_missing_sg req provC h
  simp [hA, hB, hC, missingFieldsResp]

/-- Witness for the amended C1 at a request with `to` absent. -/
theorem claim_C1_witness :
    (reqMissingTo.toField = none ∨ reqMissingTo.toField = some (ToVal.str "")
       ∨ reqMissingTo.subject = none ∨ reqMissingTo.subject = some ""
       ∨ reqMissingTo.html = none ∨ reqMissingTo.html = some "")
    ∧ (((handleSendEmailIndex reqMissingTo provOk).1.status = 400
      ∧ (handleSendEmailIndex reqMissingTo provOk).1.success = some false
      ∧ (handleSendEmailIndex reqMissingTo provOk).1.error
          = some "Missing required fields (to, subject, html)"
      ∧ (handleSendEmailIndex reqMissingTo provOk).2 = none)
    ∧ ((handleSendEmailPart000 reqMissingTo provOk).1.status = 400
      ∧ (handleSendEmailPart000 reqMissingTo provOk).1.success = some false
      ∧ (handleSendEmailPart000 reqMissingTo provOk).1.error
          = some "Missing required fields (to, subject, html)"
      ∧ (handleSendEmailPart000 reqMissingTo provOk).2 = none)
    ∧ ((handleSendEmailSg reqMissingTo provOkSg).1.status = 400
      ∧ (handleSendEmailSg reqMissingTo provOkSg).1.success = some false
      ∧ (handleSendEmailSg reqMissingTo provOkSg).1.error
          = some "Missing required fields (to, subject, html)"
      ∧ (handleSendEmailSg reqMissingTo provOkSg).2 = none)) :=
  ⟨Or.inl rfl, claim_C1_amended reqMissingTo provOk provOk provOkSg (Or.inl rfl)⟩

theorem handle_index_call (req : Req) (prov : SendReqBrevo → PResult)
    (tv : ToVal) (subj htmlv : String)
    (ht : req.toField = some tv) (htv : toValFalsy tv = false)
    (hs : req.subject = some subj) (hsne : subj ≠ "")
    (hh : req.html = some htmlv) (hhne : htmlv ≠ "") :
    (handleSendEmailIndex req prov).2 =
      some { sender := { email := jsOrStr req.fromField defaultSenderEmail,
                         name := jsOrStr req.nameField defaultSenderName },
             toField := recipientsIndex tv,
             cc := if 0 < (ccRecipients req.cc).length
                   then some (ccRecipients req.cc) else none,
             subject := subj, htmlContent := htmlv } := by
  have hc : (toValFalsy tv || subj == "" || htmlv == "") = false := by
    simp [htv, hsne, hhne]
  simp only [handleSendEmailIndex, ht, hs, hh, hc, Bool.false_eq_true, if_false]
  split <;> rfl

theorem handle_part000_call (req : Req) (prov : SendReqBrevo → PResult)
    (tv : ToVal) (subj htmlv : String)
    (ht : req.toField = some tv) (htv : toValFalsy tv = false)
    (hs : req.subject = some subj) (hsne : subj ≠ "")
    (hh : req.html = some htmlv) (hhne : htmlv ≠ "") :
    (handleSendEmailPart000 req prov).2 =
      some { sender := { email := jsOrStr req.fromField defaultSenderEmail,
                         name := jsOrStr req.nameField defaultSenderName },
             toField := recipientsPart000 tv,
             cc := if 0 < (ccRecipients req.cc).length
                   then some (ccRecipients req.cc) else none,
             subject := subj, htmlContent := htmlv } := by
  have hc : (toValFalsy tv || subj == "" || htmlv == "") = false := by
    simp [htv, hsne, hhne]
  simp only [handleSendEmailPart000, ht, hs, hh, hc, Bool.false_eq_true, if_false]
  split <;> rfl

theorem handle_sg_call (req : Req) (prov : SendReqSg → PResult)
    (tv : ToVal) (subj htmlv : String)
    (ht : req.toField = some tv) (htv : toValFalsy tv = false)
    (hs : req.subject = some subj) (hsne : subj ≠ "")
    (hh : req.html = some htmlv) (hhne : htmlv ≠ "") :
    (handleSendEmailSg req prov).2 =
      some { toField := tv, fromAddr := jsOrStr req.fromField defaultSenderEmail,
             subject := subj, html := htmlv, cc := ccFieldSg req.cc } := by
  have hc : (toValFalsy tv || subj == "" || htmlv == "") = false := by
    simp [htv, hsne, hhne]
  simp only [handleSendEmailSg, ht, hs, hh, hc, Bool.false_eq_true, if_false]
  split <;> rfl

/-- Claim C4, counterexample: in the basic Brevo variant a two-element array
`to` yields a single recipient object whose email field is the whole array,
not two address objects in order. -/
theorem claim_C4_counterexample :
    (handleSendEmailIndex reqArrTo provOk).2
      = some { sender := { email := defaultSenderEmail,
                           name := defaultSenderName },
               toField := [ToVal.arr ["a@x.com", "b@x.com"]], cc := none,
               subject := "Hi", htmlContent := "<p>hi</p>" }
    ∧ ¬ (∃ r, (handleSendEmailIndex reqArrTo provOk).2 = some r
          ∧ r.toField = [ToVal.str "a@x.com", ToVal.str "b@x.com"]) := by
  refine ⟨rfl, ?_⟩
  rintro ⟨r, hr, hto⟩
  have : r = { sender := { email := defaultSenderEmail,
                           name := defaultSenderName },
               toField := [ToVal.arr ["a@x.com", "b@x.com"]], cc := none,
               subject := "Hi", htmlContent := "<p>hi</p>" } := by
    have h2 : (handleSendEmailIndex reqArrTo provOk).2
        = some { sender := { email := defaultSenderEmail,
                             name := defaultSenderName },
                 toField := [ToVal.arr ["a@x.com", "b@x.com"]], cc := none,
                 subject := "Hi", htmlContent := "<p>hi</p>" } := rfl
    rw [h2] at hr
    exact (Option.some_injective _ hr).symm
  rw [this] at hto
  simp at hto

/-- Claim C4 (amended): for every validated request, a single-string `to`
becomes the one-element list `[{email: to}]` in both Brevo variants; a list
of N strings becomes N address objects in order in the logging variant, but
the basic variant forwards one object carrying the whole list. -/
theorem claim_C4_amended (req : Req) (provB provB0 : SendReqBrevo → PResult)
    (subj htmlv : String)
    (hs : req.subject = some subj) (hsne : subj ≠ "")
    (hh : req.html = some htmlv) (hhne : htmlv ≠ "") :
    (∀ s, req.toField = some (ToVal.str s) → s ≠ "" →
      ((∃ r, (handleSendEmailIndex req provB).2 = some r
          ∧ r.toField = [ToVal.str s])
       ∧ (∃ r, (handleSendEmailPart000 req provB0).2 = some r
          ∧ r.toField = [ToVal.str s])))
    ∧ (∀ xs, req.toField = some (ToVal.arr xs) →
      ((∃ r, (handleSendEmailPart000 req provB0).2 = some r
          ∧ r.toField = xs.map ToVal.str)
       ∧ (∃ r, (handleSendEmailIndex req provB).2 = some r
          ∧ r.toField = [ToVal.arr xs]))) := by
  constructor
  · intro s ht hse
    have htv : toValFalsy (ToVal.str s) = false := by simp [toValFalsy, hse]
    exact ⟨⟨_, handle_index_call req provB _ subj htmlv ht htv hs hsne hh hhne, rfl⟩,
      ⟨_, handle_part000_call req provB0 _ subj htmlv ht htv hs hsne hh hhne, rfl⟩⟩
  · intro xs ht
    have htv : toValFalsy (ToVal.arr xs) = false := rfl
    exact ⟨⟨_, handle_part000_call req provB0 _ subj htmlv ht htv hs hsne hh hhne, rfl⟩,
      ⟨_, handle_index_call req provB _ subj htmlv ht htv hs hsne hh hhne, rfl⟩⟩

/-- Witness for the amended C4 at a concrete single-string request. -/
theorem claim_C4_witness :
    (reqValid.subject = some "Hi" ∧ "Hi" ≠ ""
      ∧ reqValid.html = some "<p>hi</p>" ∧ "<p>hi</p>" ≠ ""
      ∧ reqValid.toField = some (ToVal.str "a@x.com") ∧ "a@x.com" ≠ "")
    ∧ ((∃ r, (handleSendEmailIndex reqValid provOk).2 = some r
          ∧ r.toField = [ToVal.str "a@x.com"])
       ∧ (∃ r, (handleSendEmailPart000 reqValid provOk).2 = some r
          ∧ r.toField = [ToVal.str "a@x.com"])) :=
  ⟨by decide,
    (claim_C4_amended reqValid provOk provOk "Hi" "<p>hi</p>" rfl (by decide)
      rfl (by decide)).1 "a@x.com" rfl (by decide)⟩

theorem ccField_none (cc : Option CcVal)
    (h : cc = none ∨ (∃ s, cc = some (CcVal.str s)) ∨ cc = some (CcVal.arr [])) :
    (if 0 < (ccRecipients cc).length then some (ccRecipients cc) else none) = none
    ∧ ccFieldSg cc = none := by
  rcases h with h | ⟨s, h⟩ | h <;> subst h <;> simp [ccRecipients, ccFieldSg]

theorem ccField_some (cc : Option CcVal) (xs : List String) (hxs : xs ≠ [])
    (h : cc = some (CcVal.arr xs)) :
    (if 0 < (ccRecipients cc).length then some (ccRecipients cc) else none) = some xs
    ∧ ccFieldSg cc = some xs := by
  subst h
  simp [ccRecipients, ccFieldSg, List.length_pos.mpr hxs]

/-- Claim C7: for every validated request, the outbound provider request of
each variant carries no `cc` field when the request `cc` is absent, not an
array, or the empty array, and carries exactly the given N addresses in
order when `cc` is a non-empty array. -/
theorem claim_C7 (req : Req) (provB provB0 : SendReqBrevo → PResult)
    (provC : SendReqSg → PResult) (tv : ToVal) (subj htmlv : String)
    (ht : req.toField = some tv) (htv : toValFalsy tv = false)
    (hs : req.subject = some subj) (hsne : subj ≠ "")
    (hh : req.html = some htmlv) (hhne : htmlv ≠ "") :
    ((req.cc = none ∨ (∃ s, req.cc = some (CcVal.str s))
        ∨ req.cc = some (CcVal.arr [])) →
      ((∃ r, (handleSendEmailIndex req provB).2 = some r ∧ r.cc = none)
       ∧ (∃ r, (handleSendEmailPart000 req provB0).2 = some r ∧ r.cc = none)
       ∧ (∃ r, (handleSendEmailSg req provC).2 = some r ∧ r.cc = none)))
    ∧ (∀ xs, xs ≠ [] → req.cc = some (CcVal.arr xs) →
      ((∃ r, (handleSendEmailIndex req provB).2 = some r ∧ r.cc = some xs)
       ∧ (∃ r, (handleSendEmailPart000 req provB0).2 = some r ∧ r.cc = some xs)
       ∧ (∃ r, (handleSendEmailSg req provC).2 = some r ∧ r.cc = some xs))) := by
  constructor
  · intro hcc
    obtain ⟨hbrevo, hsg⟩ := ccField_none req.cc hcc
    exact ⟨⟨_, handle_index_call req provB tv subj htmlv ht htv hs hsne hh hhne, hbrevo⟩,
      ⟨_, handle_part000_call req provB0 tv subj htmlv ht htv hs hsne hh hhne, hbrevo⟩,
      ⟨_, handle_sg_call req provC tv subj htmlv ht htv hs hsne hh hhne, hsg⟩⟩
  · intro xs hxs hcc
    obtain ⟨hbrevo, hsg⟩ := ccField_some req.cc xs hxs hcc
    exact ⟨⟨_, handle_index_call req provB tv subj htmlv ht htv hs hsne hh hhne, hbrevo⟩,
      ⟨_, handle_part000_call req provB0 tv subj htmlv ht htv hs hsne hh hhne, hbrevo⟩,
      ⟨_, handle_sg_call req provC tv subj htmlv ht htv hs hsne hh hhne, hsg⟩⟩

/-- Witness for C7 at a concrete request with a one-element CC array. -/
theorem claim_C7_witness :
    (({ reqValid with cc := some (CcVal.arr ["c@x.com"]) } : Req).toField
        = some (ToVal.str "a@x.com")
      ∧ toValFalsy (ToVal.str "a@x.com") = false
      ∧ ({ reqValid with cc := some (CcVal.arr ["c@x.com"]) } : Req).subject
        = some "Hi" ∧ "Hi" ≠ ""
      ∧ ({ reqValid with cc := some (CcVal.arr ["c@x.com"]) } : Req).html
        = some "<p>hi</p>" ∧ "<p>hi</p>" ≠ ""
      ∧ (["c@x.com"] : List String) ≠ []
      ∧ ({ reqValid with cc := some (CcVal.arr ["c@x.com"]) } : Req).cc
        = some (CcVal.arr ["c@x.com"]))
    ∧ ((∃ r, (handleSendEmailIndex { reqValid with
            cc := some (CcVal.arr ["c@x.com"]) } provOk).2 = some r
          ∧ r.cc = some ["c@x.com"])
       ∧ (∃ r, (handleSendEmailPart000 { reqValid with
            cc := some (CcVal.arr ["c@x.com"]) } provOk).2 = some r
          ∧ r.cc = some ["c@x.com"])
       ∧ (∃ r, (handleSendEmailSg { reqValid with
            cc := some (CcVal.arr ["c@x.com"]) } provOkSg).2 = some r
          ∧ r.cc = some ["c@x.com"])) :=
  ⟨by decide,
    (claim_C7 { reqValid with cc := some (CcVal.arr ["c@x.com"]) }
      provOk provOk provOkSg (ToVal.str "a@x.com") "Hi" "<p>hi</p>"
      rfl (by decide) rfl (by decide) rfl (by decide)).2
      ["c@x.com"] (by decide) rfl⟩

/-! ## Claims about provider-failure handling -/

theorem handle_index_err (req : Req) (e : SendError)
    (tv : ToVal) (subj htmlv : String)
    (ht : req.toField = some tv) (htv : toValFalsy tv = false)
    (hs : req.subject = some subj) (hsne : subj ≠ "")
    (hh : req.html = some htmlv) (hhne : htmlv ≠ "") :
    (handleSendEmailIndex req (fun _ => PResult.err e)).1 =
      { status := 500, success := some false,
        error := some (errorMessageIndex e), message := none, data := none } := by
  have hc : (toValFalsy tv || subj == "" || htmlv == "") = false := by
    simp [htv, hsne, hhne]
  simp only [handleSendEmailIndex, ht, hs, hh, hc, Bool.false_eq_true, if_false]

theorem handle_part000_err (req : Req) (e : SendError)
    (tv : ToVal) (subj htmlv : String)
    (ht : req.toField = some tv) (htv : toValFalsy tv = false)
    (hs : req.subject = some subj) (hsne : subj ≠ "")
    (hh : req.html = some htmlv) (hhne : htmlv ≠ "") :
    (handleSendEmailPart000 req (fun _ => PResult.err e)).1 =
      { status := 500, success := some false,
        error := some (errorMessagePart000 e), message := none, data := none } := by
  have hc : (toValFalsy tv || subj == "" || htmlv == "") = false := by
    simp [htv, hsne, hhne]
  simp only [handleSendEmailPart000, ht, hs, hh, hc, Bool.false_eq_true, if_false]

theorem handle_sg_err (req : Req) (e : SendError)
    (tv : ToVal) (subj htmlv : String)
    (ht : req.toField = some tv) (htv : toValFalsy tv = false)
    (hs : req.subject = some subj) (hsne : subj ≠ "")
    (hh : req.html = some htmlv) (hhne : htmlv ≠ "") :
    (handleSendEmailSg req (fun _ => PResult.err e)).1 =
      { status := 500, success := some false,
        error := some (errorMessageSg e), message := none, data := none } := by
  have hc : (toValFalsy tv || subj == "" || htmlv == "") = false := by
    simp [htv, hsne, hhne]
  simp only [handleSendEmailSg, ht, hs, hh, hc, Bool.false_eq_true, if_false]

/-- Claim C8, counterexample: a structured Brevo failure carrying code 400
produces the error string `Brevo error: "invalid sender"`, which contains
the serialized body but not the provider status/code anywhere. -/
theorem claim_C8_counterexample :
    errStructured.hasResp = true
    ∧ errStructured.code = some 400
    ∧ (handleSendEmailIndex reqValid provErr).1.status = 500
    ∧ (handleSendEmailIndex reqValid provErr).1.error
        = some "Brevo error: \"invalid sender\""
    ∧ ¬ ("400".toList <:+: ("Brevo error: \"invalid sender\"").toList) := by
  refine ⟨rfl, rfl, rfl, rfl, ?_⟩
  intro hinf
  exact absurd (hinf.subset (show '4' ∈ "400".toList by decide))
    (show '4' ∉ ("Brevo error: \"invalid sender\"").toList by decide)

/-- Claim C8 (amended): on provider failure every variant answers 500 with
success=false; with a structured response the Brevo variants compose the
provider name and the serialized payload (without status/code), while the
SendGrid variant composes the provider code and the serialized body; without
a structured response every variant returns the raw failure message. -/
theorem claim_C8_amended (req : Req) (e : SendError)
    (tv : ToVal) (subj htmlv : String)
    (ht : req.toField = some tv) (htv : toValFalsy tv = false)
    (hs : req.subject = some subj) (hsne : subj ≠ "")
    (hh : req.html = some htmlv) (hhne : htmlv ≠ "") :
    ((handleSendEmailIndex req (fun _ => PResult.err e)).1.status = 500
      ∧ (handleSendEmailIndex req (fun _ => PResult.err e)).1.success = some false
      ∧ (e.hasResp = true →
          (handleSendEmailIndex req (fun _ => PResult.err e)).1.error
            = some ("Brevo error: " ++ stringifyOpt e.respText))
      ∧ (e.hasResp = false →
          (handleSendEmailIndex req (fun _ => PResult.err e)).1.error
            = some e.message))
    ∧ ((handleSendEmailPart000 req (fun _ => PResult.err e)).1.status = 500
      ∧ (handleSendEmailPart000 req (fun _ => PResult.err e)).1.success = some false
      ∧ (e.hasResp = true →
          (handleSendEmailPart000 req (fun _ => PResult.err e)).1.error
            = some ("Brevo API error: "
                ++ jsStringQuote (jsOrStr e.respText
                      (jsOrStr e.respBody "Unknown API error"))))
      ∧ (e.hasResp = false →
          (handleSendEmailPart000 req (fun _ => PResult.err e)).1.error
            = some e.message))
    ∧ ((handleSendEmailSg req (fun _ => PResult.err e)).1.status = 500
      ∧ (handleSendEmailSg req (fun _ => PResult.err e)).1.success = some false
      ∧ (e.hasResp = true →
          (handleSendEmailSg req (fun _ => PResult.err e)).1.error
            = some ("SendGrid error (" ++ numOptStr e.code ++ "): "
                ++ stringifyOpt e.respBody))
      ∧ (e.hasResp = false →
          (handleSendEmailSg req (fun _ => PResult.err e)).1.error
            = some e.message)) := by
  have hA := handle_index_err req e tv subj htmlv ht htv hs hsne hh hhne
  have hB := handle_part000_err req e tv subj htmlv ht htv hs hsne hh hhne
  have hC := handle_sg_err req e tv subj htmlv ht htv hs hsne hh hhne
  rw [hA, hB, hC]
  refine ⟨⟨rfl, rfl, ?_, ?_⟩, ⟨rfl, rfl, ?_, ?_⟩, ⟨rfl, rfl, ?_, ?_⟩⟩ <;>
    intro hr <;>
    simp [errorMessageIndex, errorMessagePart000, errorMessageSg, hr]

/-- Witness for the amended C8: the SendGrid variant renders the concrete
structured failure as `SendGrid error (400): undefined`. -/
theorem claim_C8_witness :
    (reqValid.toField = some (ToVal.str "a@x.com")
      ∧ toValFalsy (ToVal.str "a@x.com") = false
      ∧ reqValid.subject = some "Hi" ∧ "Hi" ≠ ""
      ∧ reqValid.html = some "<p>hi</p>" ∧ "<p>hi</p>" ≠ ""
      ∧ errStructured.hasResp = true)
    ∧ (handleSendEmailSg reqValid (fun _ => PResult.err errStructured)).1.status = 500
    ∧ (handleSendEmailSg reqValid (fun _ => PResult.err errStructured)).1.error
        = some "SendGrid error (400): undefined" :=
  ⟨by decide,
    (claim_C8_amended reqValid errStructured (ToVal.str "a@x.com") "Hi" "<p>hi</p>"
      rfl (by decide) rfl (by decide) rfl (by decide)).2.2.1,
    (claim_C8_amended reqValid errStructured (ToVal.str "a@x.com") "Hi" "<p>hi</p>"
      rfl (by decide) rfl (by decide) rfl (by decide)).2.2.2.2.1 rfl⟩

/-! ## Claims about CORS origin handling -/

/-- Claim C3, counterexample: the default origin with a trailing slash is a
member of the basic-variant allow-list after trimming the slash, yet the
basic-variant middleware omits the CORS headers because it tests raw,
untrimmed membership. -/
theorem claim_C3_counterexample :
    trimTrailingSlash "https://kenyaonabudgetsafaris.co.uk/"
      ∈ allowedOriginsIndex none
    ∧ corsHeadersIndex (allowedOriginsIndex none)
        (some "https://kenyaonabudgetsafaris.co.uk/") = none :=
  ⟨by decide, rfl⟩

/-- Claim C3 (amended): the basic variant echoes the origin with the fixed
methods and headers exactly when the raw origin is a member of the
allow-list, with no trailing-slash normalization, and omits them otherwise;
the logging variant allows an origin exactly when its slash-trimmed form is
a member or development mode is on, and rejection there is a middleware
error rather than merely omitted headers. -/
theorem claim_C3_amended (allowed : List String) (o : String) (devMode : Bool) :
    (corsHeadersIndex allowed (some o) =
        some { allowOrigin := o, allowMethods := "GET, POST, OPTIONS",
               allowHeaders := "Content-Type, Authorization, X-API-Key" }
      ↔ o ∈ allowed)
    ∧ (o ∉ allowed → corsHeadersIndex allowed (some o) = none)
    ∧ (corsDecisionPart000 allowed devMode (some o) = CorsDecision.allow
      ↔ (trimTrailingSlash o ∈ allowed ∨ devMode = true)) := by
  refine ⟨⟨?_, ?_⟩, ?_, ?_⟩
  · intro h
    by_contra hmem
    simp [corsHeadersIndex, hmem] at h
  · intro hmem
    simp [corsHeadersIndex, hmem]
  · intro hmem
    simp [corsHeadersIndex, hmem]
  · unfold corsDecisionPart000
    by_cases h1 : trimTrailingSlash o ∈ allowed
    · simp [h1]
    · by_cases h2 : devMode <;> simp [h1, h2]

/-- Witness for the amended C3 at a concrete non-member origin. -/
theorem claim_C3_witness :
    ("https://b.com" ∉ ["https://a.com"])
    ∧ corsHeadersIndex ["https://a.com"] (some "https://b.com") = none :=
  ⟨by decide,
    (claim_C3_amended ["https://a.com"] "https://b.com" false).2.1 (by decide)⟩

/-- Claim C6, counterexample: in the logging variant (outside development
mode) a POST /send-email request with a valid key and payload but an origin
off the allow-list is answered by the error-handling middleware with
HTTP 500, the route handler is never reached and no provider call occurs —
origin rejection is surfaced as an application error response. -/
theorem claim_C6_counterexample :
    reqEvilOrigin.method = "POST"
    ∧ reqEvilOrigin.origin = some "https://evil.com"
    ∧ trimTrailingSlash "https://evil.com" ∉ basePart000
    ∧ (pipelinePart000 basePart000 "secret123" false reqEvilOrigin provOk).status
        = 500
    ∧ (pipelinePart000 basePart000 "secret123" false reqEvilOrigin
        provOk).routeReached = false
    ∧ (pipelinePart000 basePart000 "secret123" false reqEvilOrigin
        provOk).providerCall = none
    ∧ (pipelinePart000 basePart000 "secret123" false reqEvilOrigin provOk).error
        = some "Internal Server Error" :=
  ⟨rfl, rfl, by decide, rfl, rfl, rfl, rfl⟩

/-- Claim C6 (amended): in the basic variant a non-OPTIONS request with a
non-allow-listed origin still runs the matched route chain, with only the
CORS headers withheld; in the logging variant, outside development mode,
such a request is answered 500 by the error middleware, without reaching
the route or the provider. -/
theorem claim_C6_amended (allowed : List String) (secret : String) (req : Req)
    (provider : SendReqBrevo → PResult) (o : String)
    (hm : req.method ≠ "OPTIONS") (ho : req.origin = some o)
    (hno : o ∉ allowed) :
    ((pipelineIndex allowed secret req provider).routeReached = true
      ∧ (pipelineIndex allowed secret req provider).acao = none
      ∧ (pipelineIndex allowed secret req provider).status
          = (routeSendEmailIndex secret req provider).1.status
      ∧ (pipelineIndex allowed secret req provider).providerCall
          = (routeSendEmailIndex secret req provider).2)
    ∧ (trimTrailingSlash o ∉ allowed →
        ((pipelinePart000 allowed secret false req provider).status = 500
        ∧ (pipelinePart000 allowed secret false req provider).routeReached = false
        ∧ (pipelinePart000 allowed secret false req provider).providerCall = none
        ∧ (pipelinePart000 allowed secret false req provider).error
            = some "Internal Server Error")) := by
  constructor
  · have hcors : corsHeadersIndex allowed req.origin = none := by
      rw [ho]
      simp [corsHeadersIndex, hno]
    have hmb : (req.method == "OPTIONS") = false := by simp [hm]
    simp [pipelineIndex, hcors, hmb]
  · intro hclean
    have hdec : corsDecisionPart000 allowed false req.origin
        = CorsDecision.reject
            ("Origin " ++ trimTrailingSlash o ++ " not allowed by CORS policy") := by
      rw [ho]
      simp [corsDecisionPart000, hclean]
    simp [pipelinePart000, hdec]

/-- Witness for the amended C6 at a concrete rejected origin. -/
theorem claim_C6_witness :
    (reqEvilOrigin.method ≠ "OPTIONS"
      ∧ reqEvilOrigin.origin = some "https://evil.com"
      ∧ "https://evil.com" ∉ ["https://a.com"]
      ∧ trimTrailingSlash "https://evil.com" ∉ ["https://a.com"])
    ∧ ((pipelineIndex ["https://a.com"] "secret123" reqEvilOrigin
          provOk).routeReached = true
      ∧ (pipelineIndex ["https://a.com"] "secret123" reqEvilOrigin provOk).acao
          = none
      ∧ (pipelineIndex ["https://a.com"] "secret123" reqEvilOrigin provOk).status
          = (routeSendEmailIndex "secret123" reqEvilOrigin provOk).1.status
      ∧ (pipelineIndex ["https://a.com"] "secret123" reqEvilOrigin
          provOk).providerCall
          = (routeSendEmailIndex "secret123" reqEvilOrigin provOk).2)
    ∧ ((pipelinePart000 ["https://a.com"] "secret123" false reqEvilOrigin
          provOk).status = 500
      ∧ (pipelinePart000 ["https://a.com"] "secret123" false reqEvilOrigin
          provOk).routeReached = false
      ∧ (pipelinePart000 ["https://a.com"] "secret123" false reqEvilOrigin
          provOk).providerCall = none
      ∧ (pipelinePart000 ["https://a.com"] "secret123" false reqEvilOrigin
          provOk).error = some "Internal Server Error") :=
  ⟨by decide,
    (claim_C6_amended ["https://a.com"] "secret123" reqEvilOrigin provOk
      "https://evil.com" (by decide) rfl (by decide)).1,
    (claim_C6_amended ["https://a.com"] "secret123" reqEvilOrigin provOk
      "https://evil.com" (by decide) rfl (by decide)).2 (by decide)⟩

/-! ## Claims about allow-list construction -/

theorem mem_dedupAux (x : String) : ∀ (l seen : List String),
    x ∈ dedupAux seen l ↔ (x ∈ l ∧ x ∉ seen) := by
  intro l
  induction l with
  | nil =>
    intro seen
    simp [dedupAux]
  | cons y ys ih =>
    intro seen
    by_cases hy : y ∈ seen
    · rw [dedupAux, if_pos hy, ih]
      constructor
      · rintro ⟨h1, h2⟩
        exact ⟨List.mem_cons_of_mem y h1, h2⟩
      · rintro ⟨h1, h2⟩
        rcases List.mem_cons.mp h1 with h | h
        · subst h
          exact absurd hy h2
        · exact ⟨h, h2⟩
    · rw [dedupAux, if_neg hy]
      constructor
      · intro h
        rcases List.mem_cons.mp h with h | h
        · subst h
          exact ⟨List.mem_cons_self x ys, hy⟩
        · rw [ih] at h
          obtain ⟨h1, h2⟩ := h
          exact ⟨List.mem_cons_of_mem y h1,
            fun hc => h2 (List.mem_cons_of_mem y hc)⟩
      · rintro ⟨h1, h2⟩
        rcases List.mem_cons.mp h1 with h | h
        · subst h
          exact List.mem_cons_self x _
        · by_cases hxy : x = y
          · subst hxy
            exact List.mem_cons_self x _
          · apply List.mem_cons_of_mem
            rw [ih]
            refine ⟨h, fun hc => ?_⟩
            rcases List.mem_cons.mp hc with hcc | hcc
            · exact hxy hcc
            · exact h2 hcc

theorem nodup_dedupAux : ∀ (l seen : List String), (dedupAux seen l).Nodup := by
  intro l
  induction l with
  | nil =>
    intro seen
    simp [dedupAux]
  | cons y ys ih =>
    intro seen
    by_cases hy : y ∈ seen
    · rw [dedupAux, if_pos hy]
      exact ih seen
    · rw [dedupAux, if_neg hy]
      refine List.nodup_cons.mpr ⟨fun hc => ?_, ih (y :: seen)⟩
      rw [mem_dedupAux] at hc
      exact hc.2 (List.mem_cons_self y seen)

theorem string_length_pos_iff (s : String) : 0 < s.length ↔ s ≠ "" := by
  rw [show s.length = s.data.length from rfl, List.length_pos]
  constructor
  · intro h hc
    exact h (by rw [hc])
  · intro h hc
    cases s with
    | mk data =>
      apply h
      simp only at hc
      rw [hc]

/-- Claim C9, counterexample: the logging variant trims surrounding
whitespace from an externally supplied origin but keeps its trailing slash
in the constructed set, and the basic variant uses the raw comma-split with
no trimming, no deduplication and no base-list merge. -/
theorem claim_C9_counterexample :
    "https://extra.com/" ∈ allowedOriginsPart000 (some " https://extra.com/ ")
    ∧ "https://extra.com" ∉ allowedOriginsPart000 (some " https://extra.com/ ")
    ∧ allowedOriginsIndex (some "https://a.com, https://a.com")
        = ["https://a.com", " https://a.com"] :=
  ⟨by decide, by decide, rfl⟩

/-- Claim C9 (amended): the logging variant builds its allow-list once from
the fixed base list plus the comma-split external values trimmed of
surrounding whitespace with empty entries dropped, keeping the first
occurrence of each value (so the result has no duplicates), but without
trailing-slash trimming; membership later is exact string equality. -/
theorem claim_C9_amended (env : Option String) :
    (allowedOriginsPart000 env).Nodup
    ∧ (∀ b ∈ basePart000, b ∈ allowedOriginsPart000 env)
    ∧ (∀ x ∈ allowedOriginsPart000 env,
        x ∈ basePart000
        ∨ ∃ raw ∈ splitComma (jsOrStr env ""), x = jsTrim raw ∧ x ≠ "")
    ∧ (∀ raw ∈ splitComma (jsOrStr env ""), jsTrim raw ≠ "" →
        jsTrim raw ∈ allowedOriginsPart000 env) := by
  refine ⟨nodup_dedupAux _ _, ?_, ?_, ?_⟩
  · intro b hb
    rw [allowedOriginsPart000, mem_dedupAux]
    exact ⟨List.mem_append_left _ hb, List.not_mem_nil b⟩
  · intro x hx
    rw [allowedOriginsPart000, mem_dedupAux] at hx
    rcases List.mem_append.mp hx.1 with h | h
    · exact Or.inl h
    · right
      rw [List.mem_filter] at h
      obtain ⟨hmap, hpos⟩ := h
      obtain ⟨raw, hraw, hx'⟩ := List.mem_map.mp hmap
      refine ⟨raw, hraw, hx'.symm, ?_⟩
      rw [← string_length_pos_iff]
      exact of_decide_eq_true hpos
  · intro raw hraw hne
    rw [allowedOriginsPart000, mem_dedupAux]
    refine ⟨List.mem_append_right _ ?_, List.not_mem_nil _⟩
    rw [List.mem_filter]
    exact ⟨List.mem_map_of_mem jsTrim hraw,
      decide_eq_true (string_length_pos_iff _ |>.mpr hne)⟩

/-- Witness for the amended C9 at a concrete external value. -/
theorem claim_C9_witness :
    ("https://kenyaonabudgetsafaris.co.uk" ∈ basePart000
      ∧ " https://extra.com/ "
          ∈ splitComma (jsOrStr (some " https://extra.com/ ") "")
      ∧ jsTrim " https://extra.com/ " ≠ "")
    ∧ "https://kenyaonabudgetsafaris.co.uk"
        ∈ allowedOriginsPart000 (some " https://extra.com/ ")
    ∧ jsTrim " https://extra.com/ "
        ∈ allowedOriginsPart000 (some " https://extra.com/ ") :=
  ⟨by decide,
    (claim_C9_amended (some " https://extra.com/ ")).2.1 _ (by decide),
    (claim_C9_amended (some " https://extra.com/ ")).2.2.2 _ (by decide)
      (by decide)⟩
